import Mathlib

/-!
Verification of `synapse/http/replicationagent.py` and
`synapse/storage/databases/main/profile.py`.

The replication agent operates on byte strings; we model byte strings as
Lean `String`s over their ASCII characters.  Request URIs are parsed by
`twisted.web.client.URI.fromBytes`, which delegates to
`twisted.web.http.urlparse`, i.e. Python's `urllib.parse.urlparse` on
bytes.  Those collaborators are embedded below at the fidelity the
agent's behaviour depends on:

* `urlsplit`/`urlparse` — scheme/netloc/path/params/query/fragment
  splitting, including removal of tab/CR/LF bytes, scheme-character
  validation and lower-casing, and the `uses_params` scheme list.  The
  `raise ValueError` branches for mismatched IPv6 brackets and the
  ASCII-decoding of bytes are outside the modelled input space (no claim
  exercises them), so the embedded parser is total.
* `int()` on the port bytes — optional surrounding ASCII whitespace, an
  optional sign and a non-empty run of decimal digits (digit-group
  underscores are not modelled).
* `bytes.__repr__` — used by the f-string building the
  `SchemeNotSupported` message.
-/

/-- Python `bytes.strip()` whitespace set: space, \t, \n, \r, \x0b, \x0c. -/
def pyWhitespace (c : Char) : Bool :=
  c = ' ' ∨ c = '\t' ∨ c = '\n' ∨ c = '\x0d' ∨ c = '\x0b' ∨ c = '\x0c'

/-- Python `bytes.strip()` with no argument: drop leading and trailing
ASCII whitespace. -/
def pyStrip (l : List Char) : List Char :=
  (l.dropWhile pyWhitespace).reverse.dropWhile pyWhitespace |>.reverse

/-- `urllib.parse._UNSAFE_URL_BYTES_TO_REMOVE`: tab, CR and LF are removed
from the url anywhere they occur before splitting. -/
def stripUnsafeBytes (l : List Char) : List Char :=
  l.filter (fun c => ¬ (c = '\t' ∨ c = '\x0d' ∨ c = '\n'))

/-- `urllib.parse.scheme_chars`: letters, digits and `+-.`. -/
def schemeChar (c : Char) : Bool :=
  c.isAlpha ∨ c.isDigit ∨ c = '+' ∨ c = '-' ∨ c = '.'

/-- The scheme-splitting step of `urllib.parse.urlsplit`: if the url has a
`:` at position `i > 0`, its first character is an ASCII letter and every
character before the `:` is a scheme character, the scheme is the
lower-cased prefix and the rest follows the `:`; otherwise the scheme is
empty and the url is unchanged. -/
def splitScheme (l : List Char) : List Char × List Char :=
  match l.findIdx? (· = ':') with
  | none => ([], l)
  | some i =>
    if i > 0 ∧ (l.take 1).all Char.isAlpha ∧ (l.take i).all schemeChar then
      ((l.take i).map Char.toLower, l.drop (i + 1))
    else
      ([], l)

/-- `urllib.parse._splitnetloc`: after a leading `//`, the netloc extends
to the first `/`, `?` or `#` (or the end); returns (netloc, rest). -/
def splitNetloc (l : List Char) : List Char × List Char :=
  let stop : Char → Bool := fun c => c = '/' ∨ c = '?' ∨ c = '#'
  (l.takeWhile (fun c => ¬ stop c), l.dropWhile (fun c => ¬ stop c))

/-- Split at the first occurrence of `sep` (Python `split(sep, 1)`),
returning the part before and, when `sep` occurs, the part after. -/
def splitOnceAt (sep : Char) (l : List Char) : List Char × Option (List Char) :=
  if l.contains sep then
    (l.takeWhile (· ≠ sep), some ((l.dropWhile (· ≠ sep)).drop 1))
  else
    (l, none)

/-- The result row of `urllib.parse.urlsplit`. -/
structure SplitResult where
  scheme : List Char
  netloc : List Char
  path : List Char
  query : List Char
  fragment : List Char
deriving Repr, DecidableEq

/-- `urllib.parse.urlsplit(url)` with `allow_fragments=True` (the form
reached from `twisted.web.http.urlparse`): remove unsafe bytes, split off
the scheme, the `//`-netloc, then the fragment at the first `#`, then the
query at the first `?`. -/
def urlsplit (l : List Char) : SplitResult :=
  let url := stripUnsafeBytes l
  let (scheme, url) := splitScheme url
  let (netloc, url) :=
    if url.take 2 = ['/', '/'] then splitNetloc (url.drop 2) else ([], url)
  let (url, fragment) := splitOnceAt '#' url
  let (url, query) := splitOnceAt '?' url
  ⟨scheme, netloc, url, query.getD [], fragment.getD []⟩

/-- `urllib.parse.uses_params`: schemes whose last path segment may carry
`;`-delimited params. -/
def usesParams : List (List Char) :=
  [[], "ftp".toList, "hdl".toList, "prospero".toList, "http".toList,
   "imap".toList, "https".toList, "shttp".toList, "rtsp".toList,
   "rtspu".toList, "sip".toList, "sips".toList, "mms".toList,
   "sftp".toList, "tel".toList]

/-- `urllib.parse._splitparams`: params start at the first `;` after the
last `/` (or the first `;` at all when the path has no `/`). -/
def splitParams (url : List Char) : List Char × List Char :=
  if url.contains '/' then
    let afterSlash := url.reverse.takeWhile (· ≠ '/') |>.reverse
    if afterSlash.contains ';' then
      let keepLen := url.length - ((afterSlash.dropWhile (· ≠ ';')).length)
      (url.take keepLen, url.drop (keepLen + 1))
    else
      (url, [])
  else
    match splitOnceAt ';' url with
    | (before, some after) => (before, after)
    | (before, none) => (before, [])

/-- The result row of `urllib.parse.urlparse` (as used by
`twisted.web.http.urlparse`). -/
structure ParseResult where
  scheme : List Char
  netloc : List Char
  path : List Char
  params : List Char
  query : List Char
  fragment : List Char
deriving Repr, DecidableEq

/-- `urllib.parse.urlparse`: `urlsplit` plus params splitting for schemes
in `uses_params`. -/
def pyUrlparse (l : List Char) : ParseResult :=
  let r := urlsplit l
  if usesParams.contains r.scheme ∧ r.path.contains ';' then
    let (path, params) := splitParams r.path
    ⟨r.scheme, r.netloc, path, params, r.query, r.fragment⟩
  else
    ⟨r.scheme, r.netloc, r.path, [], r.query, r.fragment⟩

/-- Python `int()` on a byte string: optional surrounding ASCII
whitespace, an optional `+`/`-` sign, then a non-empty run of decimal
digits (returns `none` where Python raises `ValueError`). -/
def pyInt? (l : List Char) : Option Int :=
  let core := pyStrip l
  let (sign, digits) :=
    match core with
    | '+' :: rest => ((1 : Int), rest)
    | '-' :: rest => ((-1 : Int), rest)
    | rest => ((1 : Int), rest)
  if digits ≠ [] ∧ digits.all Char.isDigit then
    some (sign * (digits.foldl (fun acc c => 10 * acc + (c.toNat - '0'.toNat)) 0 : Nat))
  else
    none

/-- Python `bytes.strip(b"[]")` as applied by `URI.__init__` to the host:
drop leading and trailing `[` / `]` characters. -/
def stripBrackets (l : List Char) : List Char :=
  let isBr : Char → Bool := fun c => c = '[' ∨ c = ']'
  (l.dropWhile isBr).reverse.dropWhile isBr |>.reverse

/-- `twisted.web.client.URI`: the pre-parsed URI object handed to
`endpointForURI` and used for the pool key.  Fields are byte strings
modelled as `String`; `port` is an `Int` because Python's `int()` also
accepts signed input. -/
structure URI where
  scheme : String
  netloc : String
  host : String
  port : Int
  path : String
  params : String
  query : String
  fragment : String
deriving Repr, DecidableEq

/-- `twisted.web.client.URI.fromBytes(uri, defaultPort)`: strip the raw
bytes, run `twisted.web.http.urlparse`, choose the default port (443 for
https else 80 when no default is given), and split `host:port` off the
netloc at its last `:` — falling back to `(netloc, defaultPort)` when the
trailing part is not an `int()`.  `URI.__init__` strips `[`/`]` from the
host. -/
def URI.fromBytes (uri : String) (defaultPort : Option Int) : URI :=
  let raw := pyStrip uri.toList
  let r := pyUrlparse raw
  let dp : Int :=
    match defaultPort with
    | some p => p
    | none => if r.scheme = "https".toList then 443 else 80
  let (host, port) :=
    if r.netloc.contains ':' then
      let portPart := r.netloc.reverse.takeWhile (· ≠ ':') |>.reverse
      let hostPart := r.netloc.take (r.netloc.length - portPart.length - 1)
      match pyInt? portPart with
      | some p => (hostPart, p)
      | none => (r.netloc, dp)
    else
      (r.netloc, dp)
  { scheme := ⟨r.scheme⟩
    netloc := ⟨r.netloc⟩
    host := ⟨stripBrackets host⟩
    port := port
    path := ⟨r.path⟩
    params := ⟨r.params⟩
    query := ⟨r.query⟩
    fragment := ⟨r.fragment⟩ }

/-- `urllib.parse.urlunsplit` for the components `originForm` passes:
scheme, netloc and fragment empty. -/
def urlunsplitPathQuery (path query : List Char) : List Char :=
  let url :=
    if path.take 2 = ['/', '/'] then
      '/' :: '/' :: path
    else
      path
  if query ≠ [] then url ++ '?' :: query else url

/-- `twisted.web.client.URI.originForm`: `urlunparse((b"", b"", path,
params, query, b""))`, or `b"/"` when that is empty. -/
def URI.originForm (u : URI) : String :=
  let url :=
    if u.params.toList ≠ [] then
      u.path.toList ++ ';' :: u.params.toList
    else
      u.path.toList
  let form := urlunsplitPathQuery url u.query.toList
  if form = [] then "/" else ⟨form⟩

/-- Hex digit for Python's `\xHH` escapes (lowercase, as Python prints). -/
def hexDigit (n : Nat) : Char :=
  if n < 10 then Char.ofNat ('0'.toNat + n) else Char.ofNat ('a'.toNat + n - 10)

/-- One character of Python `bytes.__repr__`: backslash and the chosen
quote are backslash-escaped, tab/LF/CR print as `\t`/`\n`/`\r`, other
non-printable bytes as `\xhh`, printable ASCII verbatim. -/
def pyByteEscape (quote c : Char) : List Char :=
  if c = '\\' ∨ c = quote then ['\\', c]
  else if c = '\t' then ['\\', 't']
  else if c = '\n' then ['\\', 'n']
  else if c = '\x0d' then ['\\', 'r']
  else if c.toNat < 0x20 ∨ c.toNat ≥ 0x7f then
    ['\\', 'x', hexDigit (c.toNat / 16 % 16), hexDigit (c.toNat % 16)]
  else [c]

/-- Python `bytes.__repr__` (the `{scheme!r}` in the error f-string):
`b'...'`, switching to double quotes when the bytes contain `'` but not
`"`. -/
def pyBytesRepr (s : String) : String :=
  let cs := s.toList
  let quote := if cs.contains '\'' ∧ ¬ cs.contains '"' then '"' else '\''
  ⟨'b' :: quote :: (cs.map (pyByteEscape quote)).flatten ++ [quote]⟩

/-- `twisted.web.error.SchemeNotSupported` (the spec's
`UnsupportedScheme`): an exception carrying its message string. -/
structure SchemeNotSupported where
  msg : String
deriving Repr, DecidableEq

/-- The exception raised by `ReplicationEndpointFactory.endpointForURI`:
`SchemeNotSupported(f"Unsupported scheme: {uri.scheme!r}")`. -/
def schemeNotSupportedError (scheme : String) : SchemeNotSupported :=
  ⟨"Unsupported scheme: " ++ pyBytesRepr scheme⟩

/-- The stream-client endpoints the factory builds: `HostnameEndpoint
(reactor, host, port)` — a plain TCP endpoint — optionally wrapped by
`wrapClientTLS(creator, endpoint)`.  `R` is the opaque reactor type, `Ctx`
the opaque TLS connection-creator type returned by the policy. -/
inductive Endpoint (R Ctx : Type) where
  | hostname (reactor : R) (host : String) (port : Int)
  | tlsWrap (creator : Ctx) (wrapped : Endpoint R Ctx)
deriving Repr, DecidableEq

/-- The observable shape of an endpoint: plain TCP, or TLS over TCP. -/
inductive EndpointShape where
  | plainTCP
  | tlsOverTCP
deriving Repr, DecidableEq

/-- Shape of the outermost layer of an endpoint. -/
def Endpoint.shape {R Ctx : Type} : Endpoint R Ctx → EndpointShape
  | .hostname _ _ _ => .plainTCP
  | .tlsWrap _ _ => .tlsOverTCP

/-- `ReplicationEndpointFactory`: holds the reactor and the TLS context
factory; `context_factory` stands for the collaborator's
`creatorForNetloc(host, port)` method (`IPolicyForHTTPS`). -/
structure ReplicationEndpointFactory (R Ctx : Type) where
  reactor : R
  context_factory : String → Int → Ctx

/-- `ReplicationEndpointFactory.endpointForURI`: for scheme `http` or
`https` build `HostnameEndpoint(reactor, uri.host, uri.port)`, wrapping it
with `wrapClientTLS(context_factory.creatorForNetloc(uri.host, uri.port),
endpoint)` when the scheme is `https`; any other scheme raises
`SchemeNotSupported` (modelled as `Except.error`). -/
def ReplicationEndpointFactory.endpointForURI {R Ctx : Type}
    (f : ReplicationEndpointFactory R Ctx) (uri : URI) :
    Except SchemeNotSupported (Endpoint R Ctx) :=
  if uri.scheme = "http" ∨ uri.scheme = "https" then
    let endpoint := Endpoint.hostname f.reactor uri.host uri.port
    let endpoint :=
      if uri.scheme = "https" then
        Endpoint.tlsWrap (f.context_factory uri.host uri.port) endpoint
      else endpoint
    Except.ok endpoint
  else
    Except.error (schemeNotSupportedError uri.scheme)

/-- `ReplicationAgent`: holds the reactor and the endpoint factory the
constructor builds from `(reactor, contextFactory)`.  The connection
pool, timeout and bind address are collaborator state that the `request`
path only forwards, so they are not carried here. -/
structure ReplicationAgent (R Ctx : Type) where
  reactor : R
  endpointFactory : ReplicationEndpointFactory R Ctx

/-- `ReplicationAgent.__init__(reactor, contextFactory, ...)`: installs
`ReplicationEndpointFactory(reactor, contextFactory)`. -/
def ReplicationAgent.create {R Ctx : Type} (reactor : R)
    (contextFactory : String → Int → Ctx) : ReplicationAgent R Ctx :=
  ⟨reactor, ⟨reactor, contextFactory⟩⟩

/-- What one call to `ReplicationAgent.request` returns: either the
already-failed Deferred produced by `defer.fail(Failure())` in the
`except SchemeNotSupported` branch, or the delegation to
`_AgentBase._requestWithEndpoint(key, endpoint, method, parsedURI,
headers, bodyProducer, parsedURI.originForm)` with exactly the arguments
the code passes.  `H` and `B` are the opaque `Headers` and
`IBodyProducer` types. -/
inductive RequestOutcome (R Ctx H B : Type) where
  | failedDeferred (failure : SchemeNotSupported)
  | dispatched (key : String × String) (endpoint : Endpoint R Ctx)
      (method : String) (parsedURI : URI) (headers : Option H)
      (bodyProducer : Option B) (originForm : String)
deriving DecidableEq

/-- `ReplicationAgent.request(method, uri, headers, bodyProducer)`:
parse the raw uri with `URI.fromBytes` (no `_ensureValidURI` call), try
`endpointForURI` — catching `SchemeNotSupported` and returning a failed
Deferred — then compute the pool key `(parsedURI.scheme,
parsedURI.netloc)` and delegate to `_requestWithEndpoint`.  The outer
`Except` is the channel for exceptions the call would raise
synchronously; the body never produces `Except.error` because the only
raising operation is wrapped in `try/except`. -/
def ReplicationAgent.request {R Ctx H B : Type} (a : ReplicationAgent R Ctx)
    (method : String) (uri : String) (headers : Option H)
    (bodyProducer : Option B) :
    Except SchemeNotSupported (RequestOutcome R Ctx H B) :=
  let parsedURI := URI.fromBytes uri none
  match a.endpointFactory.endpointForURI parsedURI with
  | .error f => .ok (.failedDeferred f)
  | .ok endpoint =>
    let key := (parsedURI.scheme, parsedURI.netloc)
    .ok (.dispatched key endpoint method parsedURI headers bodyProducer
      parsedURI.originForm)

/-- The pool keys a request outcome constructed: the failure branch
returns before the key line runs, the dispatch branch built exactly the
one key it passes to `_requestWithEndpoint`. -/
def RequestOutcome.poolKeys {R Ctx H B : Type} :
    RequestOutcome R Ctx H B → List (String × String)
  | .failedDeferred _ => []
  | .dispatched key _ _ _ _ _ _ => [key]

/-- The endpoints a request outcome obtained from the factory: none in
the failure branch, exactly the one handed to `_requestWithEndpoint`
otherwise. -/
def RequestOutcome.endpoints {R Ctx H B : Type} :
    RequestOutcome R Ctx H B → List (Endpoint R Ctx)
  | .failedDeferred _ => []
  | .dispatched _ endpoint _ _ _ _ _ => [endpoint]

/-- The pool key of a dispatched outcome, if any. -/
def RequestOutcome.poolKey? {R Ctx H B : Type} :
    RequestOutcome R Ctx H B → Option (String × String)
  | .failedDeferred _ => none
  | .dispatched key _ _ _ _ _ _ => some key

/-- Whether the outcome reached the delegation to
`_requestWithEndpoint` (as opposed to failing first). -/
def RequestOutcome.isDispatched {R Ctx H B : Type} :
    RequestOutcome R Ctx H B → Bool
  | .failedDeferred _ => false
  | .dispatched _ _ _ _ _ _ _ => true

/-- The parsed URI a dispatched outcome carries, if any. -/
def RequestOutcome.parsedURI? {R Ctx H B : Type} :
    RequestOutcome R Ctx H B → Option URI
  | .failedDeferred _ => none
  | .dispatched _ _ _ uri _ _ _ => some uri

/-- Modelled from the spec: the strict URI validation that a
generic-purpose client performs (`_ensureValidURI`, deliberately not
called by `ReplicationAgent.request`) — it rejects any URI containing a
character outside RFC 3986's allowed set (unreserved, reserved,
percent). -/
def rfc3986Char (c : Char) : Bool :=
  c.isAlpha ∨ c.isDigit ∨
  c = '-' ∨ c = '.' ∨ c = '_' ∨ c = '~' ∨
  c = ':' ∨ c = '/' ∨ c = '?' ∨ c = '#' ∨ c = '[' ∨ c = ']' ∨ c = '@' ∨
  c = '!' ∨ c = '$' ∨ c = '&' ∨ c = '\'' ∨ c = '(' ∨ c = ')' ∨
  c = '*' ∨ c = '+' ∨ c = ',' ∨ c = ';' ∨ c = '=' ∨ c = '%'

/-- Modelled from the spec: a raw URI passes strict RFC validation when
it is non-empty and all of its characters are allowed. -/
def strictlyValidURI (uri : String) : Bool :=
  uri.toList ≠ [] ∧ uri.toList.all rfc3986Char

/-!
`synapse/storage/databases/main/profile.py`.  The database collaborators
(`synapse.storage.database.DatabasePool.simple_select_one`,
`simple_insert`, `simple_upsert`) and `synapse.types.UserID` belong to
the repository but are not under `src/`; the spec places them out of
scope as "trivial key-value get/set/upsert against a relational table",
so they are modelled from the spec at that level: the `profiles` table as
a list of rows, selects keyed on the `user_id` column, 404 as the
no-matching-row error (the code's own `# no match` comment), upsert as
update-matching-else-insert.
-/

/-- `synapse.api.errors.StoreError`: carries an HTTP-style code and a
message. -/
structure StoreError where
  code : Int
  msg : String
deriving Repr, DecidableEq

/-- `synapse.storage.databases.main.roommember.ProfileInfo`: the value
`get_profileinfo` returns. -/
structure ProfileInfo where
  avatar_url : Option String
  display_name : Option String
deriving Repr, DecidableEq

/-- Modelled from the spec: `synapse.types.UserID` (not under `src/`), a
Matrix user identifier with a localpart and a domain. -/
structure UserID where
  localpart : String
  domain : String
deriving Repr, DecidableEq

/-- Modelled from the spec: `UserID.to_string()` renders
`@localpart:domain`. -/
def UserID.to_string (u : UserID) : String :=
  "@" ++ u.localpart ++ ":" ++ u.domain

/-- A row of the `profiles` table: keyed by the `user_id` column (a
localpart), with nullable `displayname`, `avatar_url` and `full_user_id`
columns. -/
structure ProfilesRow where
  user_id : String
  displayname : Option String
  avatar_url : Option String
  full_user_id : Option String
deriving Repr, DecidableEq

/-- The `profiles` table: a list of rows. -/
abbrev ProfilesTable : Type := List ProfilesRow

/-- Modelled from the spec: `simple_select_one(table="profiles",
keyvalues={"user_id": localpart})` — return the first row whose
`user_id` equals the localpart, or raise `StoreError(404, ...)` when no
row matches. -/
def simple_select_one_profile (table : ProfilesTable) (localpart : String) :
    Except StoreError ProfilesRow :=
  match table.find? (fun r => r.user_id = localpart) with
  | some row => .ok row
  | none => .error ⟨404, "No row found"⟩

/-- The body of `ProfileWorkerStore.get_profileinfo` after the awaited
lookup: a 404 `StoreError` becomes `ProfileInfo(None, None)`, any other
`StoreError` is re-raised unchanged, and a row becomes
`ProfileInfo(avatar_url=row.avatar_url, display_name=row.displayname)`. -/
def get_profileinfo_from (lookup : Except StoreError ProfilesRow) :
    Except StoreError ProfileInfo :=
  match lookup with
  | .error e => if e.code = 404 then .ok ⟨none, none⟩ else .error e
  | .ok profile => .ok ⟨profile.avatar_url, profile.displayname⟩

/-- `ProfileWorkerStore.get_profileinfo(user_localpart)`: the lookup via
`simple_select_one` followed by the 404 handling. -/
def get_profileinfo (table : ProfilesTable) (user_localpart : String) :
    Except StoreError ProfileInfo :=
  get_profileinfo_from (simple_select_one_profile table user_localpart)

/-- `ProfileWorkerStore.create_profile(user_id)`: `simple_insert` of
`{"user_id": user_id.localpart, "full_user_id": user_id.to_string()}`
(the other columns NULL).  Modelled from the spec: insert appends the
row. -/
def create_profile (user_id : UserID) (table : ProfilesTable) :
    ProfilesTable :=
  table ++ [⟨user_id.localpart, none, none, some user_id.to_string⟩]

/-- Modelled from the spec: `simple_upsert(table="profiles",
keyvalues={"user_id": localpart}, values=...)` — update the `values`
columns of every row matching the key, or insert a fresh row from
keyvalues ∪ values when none matches. -/
def simple_upsert_profile (table : ProfilesTable) (localpart : String)
    (update : ProfilesRow → ProfilesRow) (fresh : ProfilesRow) :
    ProfilesTable :=
  if table.any (fun r => r.user_id = localpart) then
    table.map (fun r => if r.user_id = localpart then update r else r)
  else
    table ++ [fresh]

/-- `ProfileWorkerStore.set_profile_displayname(user_id,
new_displayname)`: upsert keyed on `user_id.localpart` writing
`displayname` and `full_user_id = user_id.to_string()`. -/
def set_profile_displayname (user_id : UserID)
    (new_displayname : Option String) (table : ProfilesTable) :
    ProfilesTable :=
  simple_upsert_profile table user_id.localpart
    (fun r => { r with displayname := new_displayname,
                       full_user_id := some user_id.to_string })
    ⟨user_id.localpart, new_displayname, none, some user_id.to_string⟩

/-- `ProfileWorkerStore.set_profile_avatar_url(user_id, new_avatar_url)`:
upsert keyed on `user_id.localpart` writing `avatar_url` and
`full_user_id = user_id.to_string()`. -/
def set_profile_avatar_url (user_id : UserID)
    (new_avatar_url : Option String) (table : ProfilesTable) :
    ProfilesTable :=
  simple_upsert_profile table user_id.localpart
    (fun r => { r with avatar_url := new_avatar_url,
                       full_user_id := some user_id.to_string })
    ⟨user_id.localpart, none, new_avatar_url, some user_id.to_string⟩

/-! Shared concrete instantiations used by the witnesses. -/

/-- A factory over trivial reactor/context types. -/
def unitFactory : ReplicationEndpointFactory Unit Unit :=
  ⟨(), fun _ _ => ()⟩

/-- An agent over trivial reactor/context types (headers and body
producer instantiated at `Unit` as well in the witnesses). -/
def unitAgent : ReplicationAgent Unit Unit :=
  ReplicationAgent.create () (fun _ _ => ())

/-- A factory whose TLS policy records the exact `(host, port)` it was
invoked with, making the context-lookup argument observable. -/
def recordingFactory : ReplicationEndpointFactory Nat (String × Int) :=
  ⟨0, fun host port => (host, port)⟩

/-- C3: for every parsed URI with scheme "https", host h and port p, the
endpoint returned by `endpointForURI` is a plain TCP endpoint targeting
(h, p) wrapped with a TLS negotiation layer whose context is obtained by
invoking the TLS policy collaborator with exactly (h, p). -/
theorem C3_https_endpoint_tls_wrapped {R Ctx : Type}
    (f : ReplicationEndpointFactory R Ctx) (uri : URI)
    (hs : uri.scheme = "https") :
    f.endpointForURI uri =
      .ok (.tlsWrap (f.context_factory uri.host uri.port)
        (.hostname f.reactor uri.host uri.port)) := by
  simp [ReplicationEndpointFactory.endpointForURI, hs]

/-- Witness for C3 at a concrete URI, with the TLS policy's argument made
observable by `recordingFactory`. -/
theorem C3_https_endpoint_tls_wrapped_witness :
    (URI.fromBytes "https://peer.example:8448/repl" none).scheme = "https" ∧
    recordingFactory.endpointForURI
        (URI.fromBytes "https://peer.example:8448/repl" none) =
      .ok (.tlsWrap ("peer.example", 8448)
        (.hostname 0 "peer.example" 8448)) :=
  ⟨by decide,
   C3_https_endpoint_tls_wrapped recordingFactory
     (URI.fromBytes "https://peer.example:8448/repl" none) (by decide)⟩

/-- C4: for every parsed URI with scheme "http", host h and port p, the
endpoint returned by `endpointForURI` is a plain TCP endpoint targeting
exactly (h, p), with no TLS wrapping applied. -/
theorem C4_http_endpoint_plain_tcp {R Ctx : Type}
    (f : ReplicationEndpointFactory R Ctx) (uri : URI)
    (hs : uri.scheme = "http") :
    f.endpointForURI uri = .ok (.hostname f.reactor uri.host uri.port) := by
  simp [ReplicationEndpointFactory.endpointForURI, hs]

/-- Witness for C4 at a concrete URI. -/
theorem C4_http_endpoint_plain_tcp_witness :
    (URI.fromBytes "http://10.0.0.5:8008/_matrix/foo" none).scheme = "http" ∧
    recordingFactory.endpointForURI
        (URI.fromBytes "http://10.0.0.5:8008/_matrix/foo" none) =
      .ok (.hostname 0 "10.0.0.5" 8008) :=
  ⟨by decide,
   C4_http_endpoint_plain_tcp recordingFactory
     (URI.fromBytes "http://10.0.0.5:8008/_matrix/foo" none) (by decide)⟩

/-- C7: `endpointForURI` is deterministic with respect to endpoint shape:
two calls on URIs with the same supported (scheme, host, port) yield
endpoints of the same shape, plain TCP exactly for "http" and TLS over
TCP for "https". -/
theorem C7_endpoint_shape_deterministic {R Ctx : Type}
    (f : ReplicationEndpointFactory R Ctx) (u1 u2 : URI)
    (hs : u1.scheme = "http" ∨ u1.scheme = "https")
    (hsch : u1.scheme = u2.scheme) (_hh : u1.host = u2.host)
    (_hp : u1.port = u2.port) :
    (f.endpointForURI u1).map Endpoint.shape =
        (f.endpointForURI u2).map Endpoint.shape ∧
    (f.endpointForURI u1).map Endpoint.shape =
      .ok (if u1.scheme = "http" then .plainTCP else .tlsOverTCP) := by
  rcases hs with h | h
  · have h2 : u2.scheme = "http" := hsch ▸ h
    have e1 : f.endpointForURI u1 = .ok (.hostname f.reactor u1.host u1.port) := by
      simp [ReplicationEndpointFactory.endpointForURI, h]
    have e2 : f.endpointForURI u2 = .ok (.hostname f.reactor u2.host u2.port) := by
      simp [ReplicationEndpointFactory.endpointForURI, h2]
    rw [e1, e2]
    simp [Except.map, Endpoint.shape, h]
  · have h2 : u2.scheme = "https" := hsch ▸ h
    have e1 : f.endpointForURI u1 =
        .ok (.tlsWrap (f.context_factory u1.host u1.port)
          (.hostname f.reactor u1.host u1.port)) := by
      simp [ReplicationEndpointFactory.endpointForURI, h]
    have e2 : f.endpointForURI u2 =
        .ok (.tlsWrap (f.context_factory u2.host u2.port)
          (.hostname f.reactor u2.host u2.port)) := by
      simp [ReplicationEndpointFactory.endpointForURI, h2]
    have hne : ¬ u1.scheme = "http" := by rw [h]; decide
    rw [e1, e2]
    simp [Except.map, Endpoint.shape, hne]

/-- Witness for C7 at two https URIs sharing (scheme, host, port) but
with different paths. -/
theorem C7_endpoint_shape_deterministic_witness :
    ((URI.fromBytes "https://h:8448/a" none).scheme = "http" ∨
      (URI.fromBytes "https://h:8448/a" none).scheme = "https") ∧
    ((recordingFactory.endpointForURI
          (URI.fromBytes "https://h:8448/a" none)).map Endpoint.shape =
        (recordingFactory.endpointForURI
          (URI.fromBytes "https://h:8448/b" none)).map Endpoint.shape ∧
      (recordingFactory.endpointForURI
          (URI.fromBytes "https://h:8448/a" none)).map Endpoint.shape =
        .ok (if (URI.fromBytes "https://h:8448/a" none).scheme = "http"
          then .plainTCP else .tlsOverTCP)) :=
  ⟨Or.inr (by decide),
   C7_endpoint_shape_deterministic recordingFactory
     (URI.fromBytes "https://h:8448/a" none)
     (URI.fromBytes "https://h:8448/b" none)
     (Or.inr (by decide)) (by decide) (by decide) (by decide)⟩

/-- Helper: the resolver rejects any scheme other than http/https with
the `SchemeNotSupported` error built from that scheme. -/
theorem endpointForURI_not_supported {R Ctx : Type}
    (f : ReplicationEndpointFactory R Ctx) (uri : URI)
    (h1 : uri.scheme ≠ "http") (h2 : uri.scheme ≠ "https") :
    f.endpointForURI uri = .error (schemeNotSupportedError uri.scheme) := by
  simp [ReplicationEndpointFactory.endpointForURI, h1, h2]

/-- Helper: when the resolver raises, `request` returns the failed
Deferred wrapping that failure. -/
theorem request_failed_of_endpoint_error {R Ctx H B : Type}
    (a : ReplicationAgent R Ctx) (m u : String) (hh : Option H)
    (b : Option B) (e : SchemeNotSupported)
    (he : a.endpointFactory.endpointForURI (URI.fromBytes u none) = .error e) :
    a.request m u hh b = .ok (.failedDeferred e) := by
  simp only [ReplicationAgent.request]
  rw [he]

/-- Helper: when the resolver returns an endpoint, `request` dispatches
it with the pool key `(scheme, netloc)` and the origin form. -/
theorem request_dispatched_of_endpoint_ok {R Ctx H B : Type}
    (a : ReplicationAgent R Ctx) (m u : String) (hh : Option H)
    (b : Option B) (e : Endpoint R Ctx)
    (he : a.endpointFactory.endpointForURI (URI.fromBytes u none) = .ok e) :
    a.request m u hh b =
      .ok (.dispatched
        ((URI.fromBytes u none).scheme, (URI.fromBytes u none).netloc) e m
        (URI.fromBytes u none) hh b (URI.fromBytes u none).originForm) := by
  simp only [ReplicationAgent.request]
  rw [he]

/-- C1: for every parsed URI whose scheme is neither "http" nor "https",
`endpointForURI` raises `SchemeNotSupported` carrying the offending
scheme, and `request` on a raw URI parsing to such a scheme fails with
that error, constructing no endpoint and no pool key (hence attempting no
connection). -/
theorem C1_unsupported_scheme_rejected {R Ctx H B : Type}
    (f : ReplicationEndpointFactory R Ctx) (a : ReplicationAgent R Ctx)
    (uri : URI) (m rawUri : String) (hh : Option H) (b : Option B)
    (h1 : uri.scheme ≠ "http") (h2 : uri.scheme ≠ "https")
    (h3 : (URI.fromBytes rawUri none).scheme ≠ "http")
    (h4 : (URI.fromBytes rawUri none).scheme ≠ "https") :
    f.endpointForURI uri = .error (schemeNotSupportedError uri.scheme) ∧
    a.request m rawUri hh b =
      .ok (.failedDeferred
        (schemeNotSupportedError (URI.fromBytes rawUri none).scheme)) ∧
    ∀ out : RequestOutcome R Ctx H B, a.request m rawUri hh b = .ok out →
      out.endpoints = [] ∧ out.poolKeys = [] := by
  have hreq := request_failed_of_endpoint_error a m rawUri hh b _
    (endpointForURI_not_supported a.endpointFactory _ h3 h4)
  refine ⟨endpointForURI_not_supported f uri h1 h2, hreq, ?_⟩
  intro out hout
  rw [hreq] at hout
  cases Except.ok.inj hout
  exact ⟨rfl, rfl⟩

/-- Witness for C1 on the scheme "ftp" (resolver) and the raw URI
`gopher://x/y` (request). -/
theorem C1_unsupported_scheme_rejected_witness :
    ("ftp" : String) ≠ "http" ∧ ("ftp" : String) ≠ "https" ∧
    (URI.fromBytes "gopher://x/y" none).scheme ≠ "http" ∧
    (URI.fromBytes "gopher://x/y" none).scheme ≠ "https" ∧
    unitFactory.endpointForURI ⟨"ftp", "x:1", "x", 1, "/", "", "", ""⟩ =
      .error ⟨"Unsupported scheme: b'ftp'"⟩ ∧
    unitAgent.request "GET" "gopher://x/y" (none : Option Unit)
        (none : Option Unit) =
      .ok (.failedDeferred ⟨"Unsupported scheme: b'gopher'"⟩) :=
  ⟨by decide, by decide, by decide, by decide,
   (@C1_unsupported_scheme_rejected Unit Unit Unit Unit unitFactory unitAgent
     ⟨"ftp", "x:1", "x", 1, "/", "", "", ""⟩ "GET" "gopher://x/y" none none
     (by decide) (by decide) (by decide) (by decide)).1,
   (@C1_unsupported_scheme_rejected Unit Unit Unit Unit unitFactory unitAgent
     ⟨"ftp", "x:1", "x", 1, "/", "", "", ""⟩ "GET" "gopher://x/y" none none
     (by decide) (by decide) (by decide) (by decide)).2.1⟩

/-- C8: on an unsupported scheme `request` never raises synchronously —
it returns a value for every input (never the exception channel), and
whatever `SchemeNotSupported` failure the resolver raised is the very
failure wrapped in the returned already-failed Deferred. -/
theorem C8_scheme_error_caught_not_raised {R Ctx H B : Type}
    (a : ReplicationAgent R Ctx) (m u : String) (hh : Option H)
    (b : Option B)
    (h1 : (URI.fromBytes u none).scheme ≠ "http")
    (h2 : (URI.fromBytes u none).scheme ≠ "https") :
    (∀ err : SchemeNotSupported, a.request m u hh b ≠ .error err) ∧
    ∀ e : SchemeNotSupported,
      a.endpointFactory.endpointForURI (URI.fromBytes u none) = .error e →
      a.request m u hh b = .ok (.failedDeferred e) := by
  constructor
  · intro err
    simp only [ReplicationAgent.request]
    cases hE : a.endpointFactory.endpointForURI (URI.fromBytes u none) <;>
      simp [hE]
  · exact fun e he => request_failed_of_endpoint_error a m u hh b e he

/-- Witness for C8 on the raw URI `ws://x/y`. -/
theorem C8_scheme_error_caught_not_raised_witness :
    (URI.fromBytes "ws://x/y" none).scheme ≠ "http" ∧
    (URI.fromBytes "ws://x/y" none).scheme ≠ "https" ∧
    unitAgent.endpointFactory.endpointForURI (URI.fromBytes "ws://x/y" none) =
      .error ⟨"Unsupported scheme: b'ws'"⟩ ∧
    unitAgent.request "GET" "ws://x/y" (none : Option Unit)
        (none : Option Unit) =
      .ok (.failedDeferred ⟨"Unsupported scheme: b'ws'"⟩) :=
  ⟨by decide, by decide, by rfl,
   (@C8_scheme_error_caught_not_raised Unit Unit Unit Unit unitAgent "GET"
     "ws://x/y" none none (by decide) (by decide)).2
     ⟨"Unsupported scheme: b'ws'"⟩ (by rfl)⟩

/-- Helper: for a supported scheme the resolver returns the TCP endpoint,
TLS-wrapped exactly when the scheme is https. -/
theorem endpointForURI_supported {R Ctx : Type}
    (f : ReplicationEndpointFactory R Ctx) (uri : URI)
    (hs : uri.scheme = "http" ∨ uri.scheme = "https") :
    f.endpointForURI uri =
      .ok (if uri.scheme = "https" then
        .tlsWrap (f.context_factory uri.host uri.port)
          (.hostname f.reactor uri.host uri.port)
      else .hostname f.reactor uri.host uri.port) := by
  simp only [ReplicationEndpointFactory.endpointForURI, if_pos hs]

/-- Helper: the pool key a request computes, as a function of the parsed
scheme and netloc. -/
theorem request_map_poolKey {R Ctx H B : Type} (a : ReplicationAgent R Ctx)
    (m u : String) (hh : Option H) (b : Option B) :
    (a.request m u hh b).map RequestOutcome.poolKey? =
      .ok (if (URI.fromBytes u none).scheme = "http" ∨
          (URI.fromBytes u none).scheme = "https" then
        some ((URI.fromBytes u none).scheme, (URI.fromBytes u none).netloc)
      else none) := by
  by_cases hc : (URI.fromBytes u none).scheme = "http" ∨
      (URI.fromBytes u none).scheme = "https"
  · rw [request_dispatched_of_endpoint_ok a m u hh b _
      (endpointForURI_supported a.endpointFactory _ hc)]
    simp [Except.map, RequestOutcome.poolKey?, if_pos hc]
  · rw [request_failed_of_endpoint_error a m u hh b _
      (endpointForURI_not_supported a.endpointFactory _
        (fun h => hc (Or.inl h)) (fun h => hc (Or.inr h)))]
    simp [Except.map, RequestOutcome.poolKey?, if_neg hc]

/-- C2 counterexample: `https://example.org/a` and
`https://example.org:443/b` parse to equal (scheme, host, port) with
different paths, yet their pool keys differ, and the first key is not
(scheme, "host:port") — the netloc keeps the authority as written, with
no default-port normalisation. -/
theorem C2_pool_key_counterexample :
    (URI.fromBytes "https://example.org/a" none).scheme =
      (URI.fromBytes "https://example.org:443/b" none).scheme ∧
    (URI.fromBytes "https://example.org/a" none).host =
      (URI.fromBytes "https://example.org:443/b" none).host ∧
    (URI.fromBytes "https://example.org/a" none).port =
      (URI.fromBytes "https://example.org:443/b" none).port ∧
    (URI.fromBytes "https://example.org/a" none).path ≠
      (URI.fromBytes "https://example.org:443/b" none).path ∧
    (unitAgent.request "GET" "https://example.org/a" (none : Option Unit)
        (none : Option Unit)).map RequestOutcome.poolKey? =
      .ok (some ("https", "example.org")) ∧
    (unitAgent.request "GET" "https://example.org:443/b" (none : Option Unit)
        (none : Option Unit)).map RequestOutcome.poolKey? =
      .ok (some ("https", "example.org:443")) ∧
    (("https", "example.org") : String × String) ≠
      ("https", "example.org:443") ∧
    (("https", "example.org") : String × String) ≠
      ("https", (URI.fromBytes "https://example.org/a" none).host ++ ":" ++
        toString (URI.fromBytes "https://example.org/a" none).port) :=
  ⟨by decide, by decide, by decide, by decide, by rfl, by rfl, by decide,
   by decide⟩

/-- C2 amended: the pool key is `(scheme, netloc)` with the netloc taken
verbatim from the URI's authority, so requests whose URIs agree on scheme
and authority string — in particular equal scheme/host/explicit port with
different paths — share a pool key, and any computed key equals
`(scheme, netloc)`. -/
theorem C2_amended_pool_key_schemes_netloc {R Ctx H B : Type}
    (a : ReplicationAgent R Ctx) (m1 m2 u1 u2 : String)
    (hh1 hh2 : Option H) (b1 b2 : Option B)
    (hsch : (URI.fromBytes u1 none).scheme = (URI.fromBytes u2 none).scheme)
    (hnet : (URI.fromBytes u1 none).netloc =
      (URI.fromBytes u2 none).netloc) :
    (a.request m1 u1 hh1 b1).map RequestOutcome.poolKey? =
      (a.request m2 u2 hh2 b2).map RequestOutcome.poolKey? ∧
    ∀ (m u : String) (hh : Option H) (b : Option B)
      (out : RequestOutcome R Ctx H B) (k : String × String),
      a.request m u hh b = .ok out → out.poolKey? = some k →
      k = ((URI.fromBytes u none).scheme, (URI.fromBytes u none).netloc) := by
  constructor
  · rw [request_map_poolKey, request_map_poolKey, hsch, hnet]
  · intro m u hh b out k hout hk
    have hmap := request_map_poolKey a m u hh b
    rw [hout] at hmap
    have hpk := Except.ok.inj hmap
    by_cases hc : (URI.fromBytes u none).scheme = "http" ∨
        (URI.fromBytes u none).scheme = "https"
    · rw [if_pos hc] at hpk
      rw [hk] at hpk
      exact Option.some.inj hpk
    · rw [if_neg hc] at hpk
      rw [hk] at hpk
      cases hpk

/-- Witness for the amended C2: the spec's two example URIs
`https://example.org:8448/path/a` and `/path/b` get identical pool keys,
namely (scheme, "host:port"). -/
theorem C2_amended_pool_key_schemes_netloc_witness :
    (URI.fromBytes "https://example.org:8448/path/a" none).scheme =
      (URI.fromBytes "https://example.org:8448/path/b" none).scheme ∧
    (URI.fromBytes "https://example.org:8448/path/a" none).netloc =
      (URI.fromBytes "https://example.org:8448/path/b" none).netloc ∧
    (unitAgent.request "GET" "https://example.org:8448/path/a"
        (none : Option Unit) (none : Option Unit)).map
        RequestOutcome.poolKey? =
      (unitAgent.request "GET" "https://example.org:8448/path/b"
        (none : Option Unit) (none : Option Unit)).map
        RequestOutcome.poolKey? ∧
    (unitAgent.request "GET" "https://example.org:8448/path/a"
        (none : Option Unit) (none : Option Unit)).map
        RequestOutcome.poolKey? =
      .ok (some ("https", "example.org:8448")) :=
  ⟨by decide, by decide,
   (@C2_amended_pool_key_schemes_netloc Unit Unit Unit Unit unitAgent "GET"
     "GET" "https://example.org:8448/path/a" "https://example.org:8448/path/b"
     none none none none (by decide) (by decide)).1,
   by rfl⟩

/-- C5 counterexample: the call `request(b"GET", b"ftp://x/y")` produces
zero pool keys and zero endpoints, not exactly one pool key. -/
theorem C5_one_key_counterexample :
    (unitAgent.request "GET" "ftp://x/y" (none : Option Unit)
        (none : Option Unit)).map
        (fun out => (out.poolKeys.length, out.endpoints.length)) =
      .ok (0, 0) ∧
    (0 : Nat) ≠ 1 :=
  ⟨by rfl, by decide⟩

/-- C5 amended: every call to `request` produces exactly one pool key
and exactly one fresh endpoint when the parsed scheme is supported, and
zero of each when it is not (the request fails before either is
built). -/
theorem C5_amended_key_endpoint_counts {R Ctx H B : Type}
    (a : ReplicationAgent R Ctx) (m u : String) (hh : Option H)
    (b : Option B) :
    (a.request m u hh b).map
        (fun out => (out.poolKeys.length, out.endpoints.length)) =
      .ok (if (URI.fromBytes u none).scheme = "http" ∨
          (URI.fromBytes u none).scheme = "https" then (1, 1)
        else (0, 0)) := by
  by_cases hc : (URI.fromBytes u none).scheme = "http" ∨
      (URI.fromBytes u none).scheme = "https"
  · rw [request_dispatched_of_endpoint_ok a m u hh b _
      (endpointForURI_supported a.endpointFactory _ hc)]
    simp [Except.map, RequestOutcome.poolKeys, RequestOutcome.endpoints,
      if_pos hc]
  · rw [request_failed_of_endpoint_error a m u hh b _
      (endpointForURI_not_supported a.endpointFactory _
        (fun h => hc (Or.inl h)) (fun h => hc (Or.inr h)))]
    simp [Except.map, RequestOutcome.poolKeys, RequestOutcome.endpoints,
      if_neg hc]

/-- C6: a raw URI whose scheme parses to "http" or "https" is parsed and
dispatched by `request` even when it fails strict RFC URI validation —
no strict-validation error is raised, the dispatch carries the parsed
URI. -/
theorem C6_no_strict_uri_validation {R Ctx H B : Type}
    (a : ReplicationAgent R Ctx) (m u : String) (hh : Option H)
    (b : Option B)
    (hs : (URI.fromBytes u none).scheme = "http" ∨
      (URI.fromBytes u none).scheme = "https")
    (hnv : ¬ strictlyValidURI u = true) :
    (a.request m u hh b).map RequestOutcome.isDispatched = .ok true ∧
    (a.request m u hh b).map RequestOutcome.parsedURI? =
      .ok (some (URI.fromBytes u none)) := by
  rw [request_dispatched_of_endpoint_ok a m u hh b _
    (endpointForURI_supported a.endpointFactory _ hs)]
  constructor
  · rfl
  · rfl

/-- Witness for C6 on `http://host:8008/a b/c`, whose path contains a
space and therefore fails strict RFC validation. -/
theorem C6_no_strict_uri_validation_witness :
    ((URI.fromBytes "http://host:8008/a b/c" none).scheme = "http" ∨
      (URI.fromBytes "http://host:8008/a b/c" none).scheme = "https") ∧
    ¬ strictlyValidURI "http://host:8008/a b/c" = true ∧
    ((unitAgent.request "GET" "http://host:8008/a b/c" (none : Option Unit)
          (none : Option Unit)).map RequestOutcome.isDispatched =
        .ok true ∧
      (unitAgent.request "GET" "http://host:8008/a b/c" (none : Option Unit)
          (none : Option Unit)).map RequestOutcome.parsedURI? =
        .ok (some (URI.fromBytes "http://host:8008/a b/c" none))) :=
  ⟨Or.inl (by decide), by decide,
   C6_no_strict_uri_validation unitAgent "GET" "http://host:8008/a b/c"
     none none (Or.inl (by decide)) (by decide)⟩

/-- C9: `get_profileinfo` maps a 404 lookup failure to
`ProfileInfo(None, None)`, re-raises any other `StoreError` unchanged,
and returns the row's displayname/avatar_url when a row exists; on the
modelled table this means: no matching row gives `ProfileInfo(None,
None)`, a matching row gives its columns. -/
theorem C9_get_profileinfo_error_handling (e : StoreError)
    (row : ProfilesRow) (table : ProfilesTable) (lp : String) :
    get_profileinfo_from (.error e) =
      (if e.code = 404 then .ok ⟨none, none⟩ else .error e) ∧
    get_profileinfo_from (.ok row) =
      .ok ⟨row.avatar_url, row.displayname⟩ ∧
    get_profileinfo table lp =
      (match table.find? (fun r => r.user_id = lp) with
       | some r => .ok ⟨r.avatar_url, r.displayname⟩
       | none => .ok ⟨none, none⟩) := by
  refine ⟨rfl, rfl, ?_⟩
  unfold get_profileinfo simple_select_one_profile get_profileinfo_from
  cases h : table.find? (fun r => r.user_id = lp) <;> simp [h]

/-- Helper: every row of an upsert result is an untouched original row
or satisfies what the update writes, provided the update fixes the key
column and establishes `P`, as does the fresh row. -/
theorem simple_upsert_profile_mem (table : ProfilesTable) (lp : String)
    (update : ProfilesRow → ProfilesRow) (fresh : ProfilesRow)
    (P : ProfilesRow → Prop)
    (hupd : ∀ r : ProfilesRow, r.user_id = lp →
      (update r).user_id = lp ∧ P (update r))
    (hfresh : fresh.user_id = lp ∧ P fresh) :
    ∀ r ∈ simple_upsert_profile table lp update fresh,
      r ∈ table ∨ (r.user_id = lp ∧ P r) := by
  intro r hr
  unfold simple_upsert_profile at hr
  by_cases hany : table.any (fun r => r.user_id = lp) = true
  · rw [if_pos hany] at hr
    rcases List.mem_map.mp hr with ⟨r0, hr0, heq⟩
    by_cases h0 : r0.user_id = lp
    · right
      rw [← heq, if_pos h0]
      exact hupd r0 h0
    · left
      rw [← heq, if_neg h0]
      exact hr0
  · rw [if_neg hany] at hr
    rcases List.mem_append.mp hr with h | h
    · exact Or.inl h
    · cases List.mem_singleton.mp h
      exact Or.inr hfresh

/-- Helper: an upsert keyed on `lp` leaves every row with a different
key untouched. -/
theorem simple_upsert_profile_preserves (table : ProfilesTable)
    (lp : String) (update : ProfilesRow → ProfilesRow)
    (fresh : ProfilesRow) :
    ∀ r ∈ table, r.user_id ≠ lp →
      r ∈ simple_upsert_profile table lp update fresh := by
  intro r hr hne
  unfold simple_upsert_profile
  by_cases hany : table.any (fun r => r.user_id = lp) = true
  · rw [if_pos hany]
    exact List.mem_map.mpr ⟨r, hr, by rw [if_neg hne]⟩
  · rw [if_neg hany]
    exact List.mem_append.mpr (Or.inl hr)

/-- C10: each profile write keys the affected row by
`user_id.localpart` and writes `full_user_id = user_id.to_string()` into
it: every row of the result is an untouched original row or has key
`u.localpart` and `full_user_id = u.to_string`, and rows with other keys
are never touched. -/
theorem C10_profile_writes_full_user_id (u : UserID)
    (name avatar : Option String) (table : ProfilesTable) :
    (∀ r ∈ create_profile u table, r ∈ table ∨
      (r.user_id = u.localpart ∧ r.full_user_id = some u.to_string)) ∧
    (∀ r ∈ set_profile_displayname u name table, r ∈ table ∨
      (r.user_id = u.localpart ∧ r.full_user_id = some u.to_string)) ∧
    (∀ r ∈ set_profile_avatar_url u avatar table, r ∈ table ∨
      (r.user_id = u.localpart ∧ r.full_user_id = some u.to_string)) ∧
    (∀ r ∈ table, r.user_id ≠ u.localpart →
      r ∈ set_profile_displayname u name table) ∧
    (∀ r ∈ table, r.user_id ≠ u.localpart →
      r ∈ set_profile_avatar_url u avatar table) := by
  refine ⟨?_, ?_, ?_, ?_, ?_⟩
  · intro r hr
    unfold create_profile at hr
    rcases List.mem_append.mp hr with h | h
    · exact Or.inl h
    · cases List.mem_singleton.mp h
      exact Or.inr ⟨rfl, rfl⟩
  · exact simple_upsert_profile_mem table u.localpart _ _
      (fun r => r.full_user_id = some u.to_string)
      (fun r hr => ⟨hr, rfl⟩) ⟨rfl, rfl⟩
  · exact simple_upsert_profile_mem table u.localpart _ _
      (fun r => r.full_user_id = some u.to_string)
      (fun r hr => ⟨hr, rfl⟩) ⟨rfl, rfl⟩
  · exact simple_upsert_profile_preserves table u.localpart _ _
  · exact simple_upsert_profile_preserves table u.localpart _ _

/-- Witness for C10: creating a profile for `@alice:example.org` over an
empty table yields the row keyed "alice" carrying the full user id. -/
theorem C10_profile_writes_full_user_id_witness :
    ((⟨"alice", none, none, some "@alice:example.org"⟩ : ProfilesRow) ∈
      create_profile ⟨"alice", "example.org"⟩ []) ∧
    ((⟨"alice", none, none, some "@alice:example.org"⟩ : ProfilesRow) ∈
        ([] : ProfilesTable) ∨
      ((⟨"alice", none, none, some "@alice:example.org"⟩ :
          ProfilesRow).user_id =
        (⟨"alice", "example.org"⟩ : UserID).localpart ∧
      (⟨"alice", none, none, some "@alice:example.org"⟩ :
          ProfilesRow).full_user_id =
        some (⟨"alice", "example.org"⟩ : UserID).to_string)) :=
  ⟨by decide,
   (C10_profile_writes_full_user_id ⟨"alice", "example.org"⟩ none none
     []).1 ⟨"alice", none, none, some "@alice:example.org"⟩ (by decide)⟩
